import Mathlib

/-!
Verification of the period-aware metrics aggregation and cohort/region
pipeline of the State-of-Flow dashboard (src/app.py).  The dashboard's
analytical logic lives in declarative SQL query strings; the definitions
below are a shallow embedding of those queries.

Time model: timestamps are natural numbers counting minutes since an
epoch aligned to a Monday 00:00.  `DATE_TRUNC` on hour/day/week becomes
subtraction of the remainder modulo the unit length.  Calendar months
and calendar interval arithmetic are modelled as fixed-length spans
(30-day months, 365-day years); no claim checked here depends on the
exact length of a calendar interval, only on the truncation structure
and on the string dispatch of the `CASE '{{Period}}'` expressions.
-/

namespace StateOfFlow

/-- Minutes in an hour bucket. -/
def hourLen : Nat := 60

/-- Minutes in a day bucket. -/
def dayLen : Nat := 1440

/-- Minutes in a week bucket (the epoch is Monday-aligned, so week
truncation lands on a Monday 00:00, matching Snowflake
`DATE_TRUNC('week', ...)`). -/
def weekLen : Nat := 10080

/-- Minutes in a month bucket (calendar months modelled as 30 days). -/
def monthLen : Nat := 43200

/-- Truncation of a timestamp to the start of its bucket of length `g`,
the embedding of `DATE_TRUNC`. -/
def bucketOf (g t : Nat) : Nat := t - t % g

/-- Embedding of `CURRENT_DATE`: the current instant truncated to the
start of the current day (a SQL DATE carries no time component). -/
def currentDate (now : Nat) : Nat := bucketOf dayLen now

/-- The bucket length selected by the `CASE '{{Period}}'` granularity
dispatch that every timeseries query in src/app.py repeats
(month / week / week / day / day / hour).  The CASE has no ELSE arm, so
an unrecognized key yields SQL NULL, embedded as `none`. -/
def periodGranLen (key : String) : Option Nat :=
  if key = "all_time" then some monthLen
  else if key = "last_year" then some weekLen
  else if key = "last_3_months" then some weekLen
  else if key = "last_month" then some dayLen
  else if key = "last_week" then some dayLen
  else if key = "last_24h" then some hourLen
  else none

/-- The window start selected by the `CASE '{{Period}}'` start dispatch
(no ELSE arm): the fixed 2020-01-01 epoch for `all_time`, otherwise
`CURRENT_DATE - INTERVAL ...`.  Calendar intervals are modelled as
fixed day counts (365 / 90 / 30 / 7 / 1). -/
def periodStart (key : String) (now : Nat) : Option Nat :=
  if key = "all_time" then some 0
  else if key = "last_year" then some (currentDate now - 365 * dayLen)
  else if key = "last_3_months" then some (currentDate now - 90 * dayLen)
  else if key = "last_month" then some (currentDate now - 30 * dayLen)
  else if key = "last_week" then some (currentDate now - 7 * dayLen)
  else if key = "last_24h" then some (currentDate now - dayLen)
  else none

/-- The start-date dispatch of SQL_TX_KPIS (and the other KPI queries):
unlike the timeseries queries, this `CASE` ends in
`ELSE CURRENT_DATE - INTERVAL '1 DAY'`, so the `last_24h` arm and every
unrecognized key fall through to the same one-day lookback. -/
def txKpisStartDate (key : String) (now : Nat) : Nat :=
  if key = "all_time" then 0
  else if key = "last_year" then currentDate now - 365 * dayLen
  else if key = "last_3_months" then currentDate now - 90 * dayLen
  else if key = "last_month" then currentDate now - 30 * dayLen
  else if key = "last_week" then currentDate now - 7 * dayLen
  else currentDate now - dayLen

/-- The bucket cutoff dispatch shared by the timeseries queries:
`DATE_TRUNC(granularity, current_date)`.  Note that the argument is
`current_date` (midnight of today) in the source, for the hour arm as
well. -/
def periodCutoff (key : String) (now : Nat) : Option Nat :=
  (periodGranLen key).map (fun g => bucketOf g (currentDate now))

/-- Embedding of the `qp` query helper's period selection: an explicit
key wins, otherwise the session key, otherwise the caller-level default
`last_3_months`.  This default substitution lives in the calling layer,
not in the SQL period dispatch. -/
def qpPeriodKey (explicit sessionKey : Option String) : String :=
  (explicit.orElse (fun _ => sessionKey)).getD "last_3_months"

/-! ### Windowed metrics engine (final_metrics of SQL_TX_OVER_TIME)

The per-bucket metric values of an ordered series are modelled as a
list of rationals in ascending bucket order; index `i` is the i-th
bucket row of the result set. -/

/-- Embedding of `LAG(total_transactions) OVER (ORDER BY time_stamp)`:
the value of the previous row, NULL (`none`) on the first row. -/
def lagVal (vals : List ℚ) (i : Nat) : Option ℚ :=
  if i = 0 then none else vals.get? (i - 1)

/-- Embedding of the null-safe percent change of SQL_TX_OVER_TIME:
`COALESCE(((v - LAG(v)) / NULLIF(LAG(v), 0)) * 100, 0)`.
`NULLIF(p, 0)` makes a zero prior NULL, the NULL propagates through the
division and multiplication, and the outer COALESCE resolves any NULL
to 0 — so the expression is total and never divides by zero. -/
def pctChange (vals : List ℚ) (i : Nat) : ℚ :=
  match lagVal vals i with
  | none => 0
  | some p => if p = 0 then 0 else (vals.getD i 0 - p) / p * 100

/-- Rounding to two decimal places, the embedding of `ROUND(x, 2)`. -/
def round2 (x : ℚ) : ℚ := ((round (x * 100) : ℤ) : ℚ) / 100

/-- Embedding of the percent-change columns of
SQL_ACTIVE_ACCOUNTS_WEEK_TABLE (cadence_pct_change, evm_pct_change,
total_pct_change):
`ROUND((v - LAG(v) OVER (ORDER BY weeks_ago DESC)) /
NULLIF(LAG(v) OVER (ORDER BY weeks_ago DESC), 0) * 100, 2)`.
Unlike SQL_TX_OVER_TIME there is no outer COALESCE here, so a zero or
absent prior leaves the NULL produced by LAG/NULLIF in place (`none`)
instead of resolving it to 0.  The value list is in LAG order (oldest
week first). -/
def weekPctChange (vals : List ℚ) (i : Nat) : Option ℚ :=
  match lagVal vals i with
  | none => none
  | some p =>
      if p = 0 then none
      else some (round2 ((vals.getD i 0 - p) / p * 100))

/-- The rows of the trailing window
`ROWS BETWEEN 3 PRECEDING AND CURRENT ROW` at row `i`: the slice of the
result sequence from row `i - 3` (clamped at 0 by Nat subtraction) to
row `i` inclusive. -/
def windowRows (vals : List ℚ) (i : Nat) : List ℚ :=
  (vals.take (i + 1)).drop (i - 3)

/-- Embedding of `AVG(v) OVER (ORDER BY time_stamp ROWS BETWEEN
3 PRECEDING AND CURRENT ROW)`: the mean of the window rows. -/
def rollingAvg (vals : List ℚ) (i : Nat) : ℚ :=
  (windowRows vals i).sum / ((windowRows vals i).length : ℚ)

/-- Embedding of `SUM(v) OVER (ORDER BY time_stamp)`: the running sum
of the rows of the result set up to and including row `i`. -/
def cumulative (vals : List ℚ) (i : Nat) : ℚ :=
  ((vals.take (i + 1)).sum)

/-! ### Raw event rows

An event row as delivered by the warehouse: an entity identifier (an
actor address, a transaction id, a contract id — whichever field the
query counts distinctly) and a block timestamp. -/

structure Event where
  entity : String
  ts : Nat
deriving DecidableEq, Repr

/-- `COUNT(DISTINCT x)` over a delivered column. -/
def countDistinct (l : List String) : Nat := l.dedup.length

/-! ### Bucketed aggregator (time_based_aggregation of SQL_TX_DIST_BY_TYPE)

`base_transactions` tags each row with its truncated bucket and keeps
rows with `block_timestamp >= start`; `time_based_aggregation` keeps
buckets `< cutoff` and groups by `(bucket, type)` with a distinct count
of transaction ids.  A category-tagged row set is modelled as a list of
`(type, Event)` pairs delivered in arbitrary order. -/

def distByTypeCount (key : String) (now : Nat) (rows : List (String × Event))
    (b : Nat) (ty : String) : Nat :=
  match periodGranLen key, periodStart key now, periodCutoff key now with
  | some g, some s, some cut =>
      countDistinct (((rows.filter (fun r =>
        r.1 = ty ∧ s ≤ r.2.ts ∧ bucketOf g r.2.ts = b ∧ bucketOf g r.2.ts < cut)).map
          (fun r => r.2.entity)))
  | _, _, _ => 0

/-! ### Cross-source merger (final SELECT of SQL_CONTRACTS_TIMESERIES)

The per-category bucketed sub-series produced by the `cadence` and
`evms` CTEs are association lists from bucket to value (one row per
bucket, as produced by `GROUP BY`).  The final SELECT full-joins them
on the bucket key and sums with `COALESCE(v, 0)`. -/

/-- The value a category contributes at bucket `b`, if it has a row
there. -/
def lookupVal (s : List (Nat × ℚ)) (b : Nat) : Option ℚ :=
  (s.find? (fun p => p.1 == b)).map (fun p => p.2)

/-- The bucket keys surviving the FULL JOIN: `COALESCE(c.time_stamp,
e.time_stamp)` ranges over every bucket present in either category. -/
def mergedBuckets (c e : List (Nat × ℚ)) : List Nat :=
  (c.map (fun p => p.1) ++ e.map (fun p => p.1)).dedup

/-- The merged per-bucket value:
`COALESCE(c.v, 0) + COALESCE(e.v, 0)`. -/
def mergedValue (c e : List (Nat × ℚ)) (b : Nat) : ℚ :=
  (lookupVal c b).getD 0 + (lookupVal e b).getD 0

/-! ### Cohort tracker (SQL_ACCOUNTS_CREATED_TIMESERIES and the
cadence_accounts CTE of SQL_ACTIVE_ACCOUNTS_WEEK_TABLE) -/

/-- Minimum of a list of naturals, `none` when empty (the SQL `MIN`
aggregate over a group). -/
def listMin : List Nat → Option Nat
  | [] => none
  | x :: xs =>
      match listMin xs with
      | none => some x
      | some m => some (min x m)

/-- The `base_data` CTE of SQL_ACCOUNTS_CREATED_TIMESERIES: rows of
both chains united, kept when `block_timestamp >= start`, tagged with
their truncated bucket, and kept when `bucket < cutoff`.  The result is
the list of `(actor_address, time_stamp)` pairs the window sees. -/
def acBaseData (key : String) (now : Nat) (events : List Event) :
    List (String × Nat) :=
  match periodGranLen key, periodStart key now, periodCutoff key now with
  | some g, some s, some cut =>
      ((events.filter (fun e => s ≤ e.ts)).map
        (fun e => (e.entity, bucketOf g e.ts))).filter (fun r => r.2 < cut)
  | _, _, _ => []

/-- The first-seen bucket the `new_accounts` CTE assigns to an actor:
`ROW_NUMBER() OVER (PARTITION BY actor_address ORDER BY time_stamp)`
keeps the minimal bucket — but computed over `base_data` only, i.e.
over the rows that survived the window filter. -/
def acFirstSeenWindow (key : String) (now : Nat) (events : List Event)
    (a : String) : Option Nat :=
  listMin (((acBaseData key now events).filter (fun r => r.1 = a)).map
    (fun r => r.2))

/-- `daily_new_accounts` of SQL_ACCOUNTS_CREATED_TIMESERIES at bucket
`b`: the number of distinct actors whose rn = 1 row (minimal in-window
bucket) lands on `b`. -/
def acDailyNew (key : String) (now : Nat) (events : List Event) (b : Nat) :
    Nat :=
  ((((acBaseData key now events).map (fun r => r.1)).dedup).filter
    (fun a => acFirstSeenWindow key now events a = some b)).length

/-- The first-seen bucket the specification prescribes (spec section 4.5):
the minimum event timestamp of the actor over all available history,
truncated to bucket granularity — stated here in the claim's words so
the source computation can be compared against it. -/
def acFirstSeenFullHistory (g : Nat) (events : List Event) (a : String) :
    Option Nat :=
  listMin (((events.filter (fun e => e.entity = a)).map
    (fun e => bucketOf g e.ts)))

/-- The per-bucket new count the specification prescribes: distinct
actors whose full-history first-seen bucket equals `b` (and which are
visible to the window at all). -/
def acDailyNewFullHistory (key : String) (now : Nat) (events : List Event)
    (b : Nat) : Nat :=
  match periodGranLen key with
  | some g =>
      ((((acBaseData key now events).map (fun r => r.1)).dedup).filter
        (fun a => acFirstSeenFullHistory g events a = some b)).length
  | none => 0

/-- The inner derived table of the cadence_accounts CTE of
SQL_ACTIVE_ACCOUNTS_WEEK_TABLE: per actor, `MIN(block_timestamp)` over
the whole table, with no window filter — the two-phase full-history
computation. -/
def weekTableFirstTxTime (events : List Event) (a : String) : Option Nat :=
  listMin ((events.filter (fun e => e.entity = a)).map (fun e => e.ts))

/-- `new_accounts` of one weekly period of SQL_ACTIVE_ACCOUNTS_WEEK_TABLE:
distinct actors whose full-history first transaction time falls inside
`[startW, endW)`. -/
def weekTableNewAccounts (events : List Event) (startW endW : Nat) : Nat :=
  (((events.map (fun e => e.entity)).dedup).filter (fun a =>
    match weekTableFirstTxTime events a with
    | some t => startW ≤ t ∧ t < endW
    | none => False)).length

/-! ### Combined active-accounts timeseries (SQL_ACTIVE_ACCOUNTS_TIMESERIES)

`base_data` builds one `(bucket, type, distinct-count)` row per bucket
and chain; `aggregated_data` unions the per-chain rows (kept under the
per-period cutoff) with an `EVM + Cadence` total per bucket (no cutoff);
the final SELECT keeps only rows with
`day < trunc(current_date, 'week')`.  The rolling_avg column of
final_data is presentation-only and not needed by any claim, so the
row model carries `(day, type, active_users)`. -/

/-- The per-chain bucketed series of one branch of `base_data`: for
each bucket of a filtered event set, the distinct-entity count. -/
def perTypeSeries (g s : Nat) (events : List Event) : List (Nat × Nat) :=
  (((events.filter (fun e => s ≤ e.ts)).map (fun e => bucketOf g e.ts)).dedup).map
    (fun b => (b, countDistinct (((events.filter (fun e =>
      s ≤ e.ts ∧ bucketOf g e.ts = b)).map (fun e => e.entity)))))

/-- The full output row set of SQL_ACTIVE_ACCOUNTS_TIMESERIES. -/
def activeAccountsRows (key : String) (now : Nat) (cadence evm : List Event) :
    List (Nat × String × Nat) :=
  match periodGranLen key, periodStart key now, periodCutoff key now with
  | some g, some s, some cut =>
      let base : List (Nat × String × Nat) :=
        ((perTypeSeries g s cadence).map (fun r => (r.1, "Cadence", r.2))) ++
        ((perTypeSeries g s evm).map (fun r => (r.1, "EVM", r.2)))
      let branch1 := base.filter (fun r => r.1 < cut)
      let branch2 : List (Nat × String × Nat) :=
        ((base.map (fun r => r.1)).dedup).map (fun b =>
          (b, "EVM + Cadence",
            ((base.filter (fun r => r.1 = b)).map (fun r => r.2.2)).sum))
      (branch1 ++ branch2).filter
        (fun r => r.1 < bucketOf weekLen (currentDate now))
  | _, _, _ => []

/-! ### Transactions-over-time bucket filter (SQL_TX_OVER_TIME)

final_metrics keeps aggregated buckets with `time_stamp < CASE ...
DATE_TRUNC(granularity, current_date)`.  Only the surviving bucket keys
matter for the cutoff claim. -/

/-- The bucket keys of final_metrics of SQL_TX_OVER_TIME: distinct
truncated buckets of the rows with `block_timestamp >= start`, kept
when strictly below the cutoff. -/
def txOverTimeBuckets (key : String) (now : Nat) (events : List Event) :
    List Nat :=
  match periodGranLen key, periodStart key now, periodCutoff key now with
  | some g, some s, some cut =>
      (((events.filter (fun e => s ≤ e.ts)).map
        (fun e => bucketOf g e.ts)).dedup).filter (fun b => b < cut)
  | _, _, _ => []

/-! ### Region classifier

Modelled from the spec: no region-inference code ships under src/ (the
repository holds only the dashboard in app.py); the Region Classifier
of spec sections 3 and 4.6 is embedded here from the specification's
words.  A catalog entry is a region name with its characteristic
peak-hour set; an entity's profile is its `top_hours` list.  The score
of a region is the number of top hours falling in its peak set, and the
entity is assigned the region with the strictly highest score, or
`Unknown` when two or more regions tie for the maximum. -/

/-- Modelled from the spec: score of one region against a `top_hours`
set — the number of top hours in the region's peak-hour set. -/
def regionScore (peak topHours : List Nat) : Nat :=
  (topHours.filter (fun h => decide (h ∈ peak))).length

/-- Modelled from the spec: a region is the strict winner when every
other catalog entry scores strictly less. -/
def strictBest (catalog : List (String × List Nat)) (topHours : List Nat)
    (r : String × List Nat) : Bool :=
  catalog.all (fun s =>
    s.1 == r.1 || decide (regionScore s.2 topHours < regionScore r.2 topHours))

/-- Modelled from the spec: assign the strictly best region, `Unknown`
when none exists (in particular on any tie for the maximal score,
including a maximal score of zero). -/
def classifyRegion (catalog : List (String × List Nat)) (topHours : List Nat) :
    String :=
  match catalog.find? (fun r => strictBest catalog topHours r) with
  | some r => r.1
  | none => "Unknown"

/-! ## Helper lemmas -/

/-- Week truncation is invariant under first truncating to the day,
because a week is a whole number of days. -/
theorem bucketOf_week_currentDate (t : Nat) :
    bucketOf weekLen (currentDate t) = bucketOf weekLen t := by
  unfold currentDate bucketOf weekLen dayLen
  omega

/-! ## Claim theorems -/

/-- Claim C5 counterexample: the claim fails on the percent-change
columns of SQL_ACTIVE_ACCOUNTS_WEEK_TABLE, which carry no COALESCE.
On the series [4, 6] the first row has an absent prior (LAG is NULL)
and a zero prior occurs on the series [0, 5] — in both cases the
week-table computation yields NULL (`none`), not 0. -/
theorem pctChange_nullSafe_cex :
    weekPctChange [(4 : ℚ), 6] 0 = none
    ∧ weekPctChange [(4 : ℚ), 6] 0 ≠ some 0
    ∧ weekPctChange [(0 : ℚ), 5] 1 = none := by
  refine ⟨rfl, ?_, ?_⟩
  · simp [weekPctChange, lagVal]
  · simp [weekPctChange, lagVal]

/-- Claim C5 (amended): when the prior row value is nonzero, the
percent change equals `(raw - prior) / prior * 100` everywhere (rounded
to two decimals in the week table); when the prior is 0 or absent
(including the first bucket, where LAG is NULL), the computations
wrapped in COALESCE — SQL_TX_OVER_TIME and its peers — yield 0, but the
week-table columns of SQL_ACTIVE_ACCOUNTS_WEEK_TABLE, which have no
COALESCE, yield NULL instead.  In either form NULLIF keeps the division
null-safe, so the computation never raises a division error for any
input values. -/
theorem pctChange_nullSafe (vals : List ℚ) (i : Nat) :
    (∀ p, lagVal vals i = some p → p ≠ 0 →
        pctChange vals i = (vals.getD i 0 - p) / p * 100
        ∧ weekPctChange vals i
            = some (round2 ((vals.getD i 0 - p) / p * 100)))
    ∧ (lagVal vals i = none →
        pctChange vals i = 0 ∧ weekPctChange vals i = none)
    ∧ (lagVal vals i = some 0 →
        pctChange vals i = 0 ∧ weekPctChange vals i = none)
    ∧ lagVal vals 0 = none := by
  refine ⟨?_, ?_, ?_, rfl⟩
  · intro p hp hne
    constructor
    · simp [pctChange, hp, hne]
    · simp [weekPctChange, hp, hne]
  · intro h
    exact ⟨by simp [pctChange, h], by simp [weekPctChange, h]⟩
  · intro h
    exact ⟨by simp [pctChange, h], by simp [weekPctChange, h]⟩

/-- Claim C5 (amended) witness: with raw values 4 then 6 the percent
change of the second row is (6 - 4) / 4 * 100 = 50 in both forms. -/
theorem pctChange_nullSafe_witness :
    pctChange [(4 : ℚ), 6] 1 = 50
    ∧ weekPctChange [(4 : ℚ), 6] 1 = some 50 := by
  have h := (pctChange_nullSafe [(4 : ℚ), 6] 1).1 4 rfl (by norm_num)
  constructor
  · rw [h.1]
    norm_num
  · rw [h.2]
    norm_num [round2, round_eq]

/-- Claim C6: the trailing window
`ROWS BETWEEN 3 PRECEDING AND CURRENT ROW` at row `i` of the result
sequence holds exactly the last `min (i+1) 4` raw values (the current
row and up to 3 preceding rows present in the result), and the rolling
average is their arithmetic mean. -/
theorem rollingAvg_trailingMean (vals : List ℚ) (i : Nat)
    (hi : i < vals.length) :
    (windowRows vals i).length = min (i + 1) 4
    ∧ rollingAvg vals i =
        (windowRows vals i).sum / ((min (i + 1) 4 : Nat) : ℚ)
    ∧ vals.take (i + 1) = vals.take (i - 3) ++ windowRows vals i := by
  have hlen : (windowRows vals i).length = min (i + 1) 4 := by
    rw [windowRows, List.length_drop, List.length_take]
    omega
  refine ⟨hlen, ?_, ?_⟩
  · rw [rollingAvg, hlen]
  · rw [windowRows]
    have h1 := List.take_append_drop (i - 3) (vals.take (i + 1))
    rw [List.take_take, show min (i - 3) (i + 1) = i - 3 by omega] at h1
    exact h1.symm

/-- Claim C6 witness: on the spec example series
[100, 120, 90, 150] the rolling average at the last row is
(100 + 120 + 90 + 150) / 4 = 115. -/
theorem rollingAvg_trailingMean_witness :
    rollingAvg [(100 : ℚ), 120, 90, 150] 3 = 115 := by
  have h := (rollingAvg_trailingMean [(100 : ℚ), 120, 90, 150] 3
    (by norm_num)).2.1
  rw [h]
  norm_num [windowRows]

/-- Claim C7: the running total `SUM(v) OVER (ORDER BY time_stamp)`
equals the exact running sum of the raw values of the result set:
it starts at the first row's value, obeys
`cumulative (i+1) = raw (i+1) + cumulative i`, and is non-decreasing
whenever every raw value is non-negative. -/
theorem cumulative_runningSum (vals : List ℚ) :
    (vals ≠ [] → cumulative vals 0 = vals.getD 0 0)
    ∧ (∀ i, i + 1 < vals.length →
        cumulative vals (i + 1) = vals.getD (i + 1) 0 + cumulative vals i)
    ∧ ((∀ x ∈ vals, 0 ≤ x) → ∀ i j, i ≤ j →
        cumulative vals i ≤ cumulative vals j) := by
  refine ⟨?_, ?_, ?_⟩
  · intro h
    cases vals with
    | nil => exact absurd rfl h
    | cons x xs => simp [cumulative]
  · intro i hi
    rw [cumulative, cumulative, List.sum_take_succ vals (i + 1) hi,
      List.getD_eq_getElem vals 0 hi]
    ring
  · intro hnn i j hij
    induction j, hij using Nat.le_induction with
    | base => exact le_refl _
    | succ n hn ih =>
        refine le_trans ih ?_
        by_cases h : n + 1 < vals.length
        · rw [cumulative, cumulative, List.sum_take_succ vals (n + 1) h]
          have hx : (0 : ℚ) ≤ vals[n + 1] := hnn _ (List.getElem_mem h)
          linarith
        · rw [cumulative, cumulative,
            List.take_of_length_le (l := vals) (by omega),
            List.take_of_length_le (l := vals) (by omega)]

/-- Claim C7 witness: on the spec example series [100, 120, 90, 150]
the running total at the last row is 150 + 310 = 460. -/
theorem cumulative_runningSum_witness :
    cumulative [(100 : ℚ), 120, 90, 150] 3 = 460 := by
  have h := (cumulative_runningSum [(100 : ℚ), 120, 90, 150]).2.1 2
    (by norm_num)
  rw [h]
  norm_num [cumulative]

/-- Claim C8: the cross-source FULL JOIN of SQL_CONTRACTS_TIMESERIES
keeps every bucket present in at least one category, values are summed
with a missing category counted as 0 (a bucket present in only one
category keeps that category's value unchanged), and a category that
returns no rows at all neither drops the other category's buckets nor
changes their values. -/
theorem merger_outerJoin (c e : List (Nat × ℚ)) :
    (∀ b, b ∈ mergedBuckets c e ↔
        b ∈ c.map (fun p => p.1) ∨ b ∈ e.map (fun p => p.1))
    ∧ (∀ b v, lookupVal c b = some v → lookupVal e b = none →
        mergedValue c e b = v)
    ∧ (∀ b v, lookupVal c b = none → lookupVal e b = some v →
        mergedValue c e b = v)
    ∧ (∀ b, b ∈ mergedBuckets c [] ↔ b ∈ c.map (fun p => p.1))
    ∧ (∀ b, mergedValue c [] b = (lookupVal c b).getD 0) := by
  refine ⟨?_, ?_, ?_, ?_, ?_⟩
  · intro b
    simp [mergedBuckets]
  · intro b v h1 h2
    simp [mergedValue, h1, h2]
  · intro b v h1 h2
    simp [mergedValue, h1, h2]
  · intro b
    simp [mergedBuckets]
  · intro b
    simp [mergedValue, lookupVal]

/-- Claim C8 witness: merging [(1, 5), (2, 7)] with [(2, 3), (4, 9)],
bucket 1 is present only in the first category and keeps its value 5. -/
theorem merger_outerJoin_witness :
    mergedValue [(1, (5 : ℚ)), (2, 7)] [(2, (3 : ℚ)), (4, 9)] 1 = 5 :=
  (merger_outerJoin [(1, (5 : ℚ)), (2, 7)] [(2, (3 : ℚ)), (4, 9)]).2.1
    1 5 rfl rfl

/-- Claim C9: the bucketed aggregation of SQL_TX_DIST_BY_TYPE
(per-bucket, per-type distinct-id counts) is invariant under any
permutation of the delivered rows: the output is a pure function of
the multiset of rows. -/
theorem bucketAgg_permInvariant (key : String) (now : Nat)
    (rows1 rows2 : List (String × Event)) (hp : rows1.Perm rows2) :
    ∀ b ty, distByTypeCount key now rows1 b ty =
      distByTypeCount key now rows2 b ty := by
  intro b ty
  unfold distByTypeCount
  cases periodGranLen key with
  | none => rfl
  | some g =>
    cases periodStart key now with
    | none => rfl
    | some s =>
      cases periodCutoff key now with
      | none => rfl
      | some cut =>
        unfold countDistinct
        exact List.Perm.length_eq
          (List.Perm.dedup (List.Perm.map _ (List.Perm.filter _ hp)))

/-- Claim C9 witness: two orderings of the same three rows produce the
same distinct count for the Cadence day bucket. -/
theorem bucketAgg_permInvariant_witness :
    distByTypeCount "last_week" 28830
      [("Cadence", ⟨"t1", 21610⟩), ("EVM", ⟨"t2", 21700⟩),
        ("Cadence", ⟨"t1", 21620⟩)] 21600 "Cadence" =
    distByTypeCount "last_week" 28830
      [("Cadence", ⟨"t1", 21620⟩), ("Cadence", ⟨"t1", 21610⟩),
        ("EVM", ⟨"t2", 21700⟩)] 21600 "Cadence" :=
  bucketAgg_permInvariant "last_week" 28830
    [("Cadence", ⟨"t1", 21610⟩), ("EVM", ⟨"t2", 21700⟩),
      ("Cadence", ⟨"t1", 21620⟩)]
    [("Cadence", ⟨"t1", 21620⟩), ("Cadence", ⟨"t1", 21610⟩),
      ("EVM", ⟨"t2", 21700⟩)]
    (by decide) 21600 "Cadence"

/-- Claim C10: every row of SQL_ACTIVE_ACCOUNTS_TIMESERIES survives the
final `where day < trunc(current_date, 'week')` filter, so for every
period key — including day granularity (last_week, last_month) and hour
granularity (last_24h) — only buckets strictly earlier than the start
of the current calendar week are returned. -/
theorem activeAccounts_currentWeekFilter (key : String) (now : Nat)
    (cadence evm : List Event) (row : Nat × String × Nat)
    (h : row ∈ activeAccountsRows key now cadence evm) :
    row.1 < bucketOf weekLen now := by
  rw [← bucketOf_week_currentDate now]
  unfold activeAccountsRows at h
  split at h
  · simp only [List.mem_filter] at h
    simpa using h.2
  · simp at h

/-- Claim C10 witness: with the current instant 10 hours into a Monday,
a last_24h request keeps the hour bucket of an event from the previous
Sunday noon, and that bucket precedes the start of the current week. -/
theorem activeAccounts_currentWeekFilter_witness :
    ((9360, "Cadence", 1) : Nat × String × Nat).1 < bucketOf weekLen 10680 :=
  activeAccounts_currentWeekFilter "last_24h" 10680 [⟨"a", 9360⟩] []
    (9360, "Cadence", 1) (by decide)

/-- Claim C4: the Region Classifier (modelled from the spec) assigns a
region name only when that region's score is strictly highest among all
catalog entries, and whenever two or more regions tie for the maximal
score (including a maximal score of zero) the entity is assigned
Unknown. -/
theorem regionClassifier_strictMax (catalog : List (String × List Nat))
    (topHours : List Nat)
    (hnd : (catalog.map (fun r => r.1)).Nodup)
    (hu : "Unknown" ∉ catalog.map (fun r => r.1)) :
    (∀ r ∈ catalog, classifyRegion catalog topHours = r.1 →
      ∀ s ∈ catalog, s.1 ≠ r.1 →
        regionScore s.2 topHours < regionScore r.2 topHours)
    ∧ (∀ r ∈ catalog, ∀ s ∈ catalog, r.1 ≠ s.1 →
        regionScore r.2 topHours = regionScore s.2 topHours →
        (∀ t ∈ catalog, regionScore t.2 topHours ≤ regionScore r.2 topHours) →
        classifyRegion catalog topHours = "Unknown") := by
  constructor
  · intro r hr hcl s hs hne
    unfold classifyRegion at hcl
    cases hfind : catalog.find? (fun x => strictBest catalog topHours x) with
    | none =>
        rw [hfind] at hcl
        have hcl2 : "Unknown" = r.1 := hcl
        have hmem : "Unknown" ∈ catalog.map (fun x => x.1) := by
          rw [hcl2]
          exact List.mem_map_of_mem (fun x => x.1) hr
        exact absurd hmem hu
    | some w =>
        rw [hfind] at hcl
        have hcl2 : w.1 = r.1 := hcl
        have hwmem : w ∈ catalog := List.mem_of_find?_eq_some hfind
        have hwr : w = r :=
          List.inj_on_of_nodup_map hnd hwmem hr hcl2
        have hbest : strictBest catalog topHours r = true := by
          rw [← hwr]
          exact List.find?_some hfind
        unfold strictBest at hbest
        rw [List.all_eq_true] at hbest
        have hx := hbest s hs
        simp only [Bool.or_eq_true, beq_iff_eq, decide_eq_true_eq] at hx
        rcases hx with hx1 | hx2
        · exact absurd hx1 hne
        · exact hx2
  · intro r hr s hs hne heq hmax
    unfold classifyRegion
    have hnone : catalog.find? (fun x => strictBest catalog topHours x)
        = none := by
      rw [List.find?_eq_none]
      intro t ht hbest
      unfold strictBest at hbest
      rw [List.all_eq_true] at hbest
      by_cases hrt : r.1 = t.1
      · have hx := hbest s hs
        simp only [Bool.or_eq_true, beq_iff_eq, decide_eq_true_eq] at hx
        rcases hx with hx1 | hx2
        · exact hne (hrt.trans hx1.symm)
        · have hle := hmax t ht
          rw [heq] at hle
          omega
      · have hx := hbest r hr
        simp only [Bool.or_eq_true, beq_iff_eq, decide_eq_true_eq] at hx
        rcases hx with hx1 | hx2
        · exact hrt hx1
        · have hle := hmax t ht
          omega
    rw [hnone]

/-- Claim C4 witness: the spec example — two regions each scoring 3
against the same top_hours — is classified Unknown. -/
theorem regionClassifier_strictMax_witness :
    classifyRegion [("AsiaPacific", [0, 1, 2, 3, 4, 5]),
      ("Europe", [6, 7, 8, 9, 10, 11])] [0, 1, 2, 6, 7, 8] = "Unknown" :=
  (regionClassifier_strictMax
    [("AsiaPacific", [0, 1, 2, 3, 4, 5]), ("Europe", [6, 7, 8, 9, 10, 11])]
    [0, 1, 2, 6, 7, 8] (by decide) (by decide)).2
    ("AsiaPacific", [0, 1, 2, 3, 4, 5]) (by decide)
    ("Europe", [6, 7, 8, 9, 10, 11]) (by decide)
    (by decide) (by decide) (by decide)

/-- Claim C2 counterexample: the start-date CASE of SQL_TX_KPIS carries
an ELSE arm, so the unrecognized key "not_a_period2" does not fail —
it silently resolves to the same one-day lookback as last_24h. -/
theorem periodResolver_noFailure_cex :
    txKpisStartDate "not_a_period2" 28830 = txKpisStartDate "last_24h" 28830
    ∧ txKpisStartDate "not_a_period2" 28830 = currentDate 28830 - dayLen := by
  decide

/-- Claim C2 (amended): for every key outside the five explicitly
matched keys, the KPI start-date CASE falls through to its ELSE arm
(`CURRENT_DATE - INTERVAL '1 DAY'`, the last_24h lookback); for keys
outside the full six-key enumeration the timeseries CASEs, which have
no ELSE arm, yield NULL, so those queries silently return no rows; no
InvalidPeriod failure exists in this core. -/
theorem periodResolver_else_fallback (key : String) (now : Nat)
    (h : key ∉ ["all_time", "last_year", "last_3_months", "last_month",
      "last_week"]) :
    txKpisStartDate key now = currentDate now - dayLen
    ∧ (key ≠ "last_24h" →
        periodGranLen key = none ∧ periodStart key now = none
        ∧ ∀ events, txOverTimeBuckets key now events = []) := by
  simp only [List.mem_cons, List.not_mem_nil, or_false, not_or] at h
  obtain ⟨h1, h2, h3, h4, h5⟩ := h
  constructor
  · simp [txKpisStartDate, h1, h2, h3, h4, h5]
  · intro h6
    have hg : periodGranLen key = none := by
      simp [periodGranLen, h1, h2, h3, h4, h5, h6]
    have hs : periodStart key now = none := by
      simp [periodStart, h1, h2, h3, h4, h5, h6]
    refine ⟨hg, hs, fun events => ?_⟩
    simp [txOverTimeBuckets, hg, hs]

/-- Claim C2 (amended) witness: the unrecognized key "not_a_period"
resolves to the default one-day lookback in the KPI CASE and to NULL
granularity in the timeseries CASEs. -/
theorem periodResolver_else_fallback_witness :
    txKpisStartDate "not_a_period" 28830 = currentDate 28830 - dayLen
    ∧ periodGranLen "not_a_period" = none := by
  have h := periodResolver_else_fallback "not_a_period" 28830 (by decide)
  exact ⟨h.1, (h.2 (by decide)).1⟩

/-- Claim C1: evaluation at a failing input.  Under period last_week at
now = minute 28830 (window start 18720), actor "a" has events at minute
1440 (before the window) and minute 21610 (inside).  Its full-history
first-seen day bucket is 1440, before the window start — yet
SQL_ACCOUNTS_CREATED_TIMESERIES, whose rn = 1 first-seen computation
runs over the already window-filtered base_data, counts it as new at
the in-window bucket 21600, where the claimed full-history rule counts
0.  The two-phase SQL_ACTIVE_ACCOUNTS_WEEK_TABLE (unfiltered MIN over
all history) correctly counts it in no window week. -/
theorem accountsCreated_firstSeen_windowScoped :
    acDailyNew "last_week" 28830 [⟨"a", 1440⟩, ⟨"a", 21610⟩] 21600 = 1
    ∧ acFirstSeenFullHistory dayLen [⟨"a", 1440⟩, ⟨"a", 21610⟩] "a"
        = some 1440
    ∧ periodStart "last_week" 28830 = some 18720
    ∧ 1440 < 18720
    ∧ acDailyNewFullHistory "last_week" 28830 [⟨"a", 1440⟩, ⟨"a", 21610⟩]
        21600 = 0
    ∧ weekTableNewAccounts [⟨"a", 1440⟩, ⟨"a", 21610⟩] 18720 28800 = 0 := by
  decide

/-- Claim C3: evaluation at a failing input.  At now = minute 2370
(15:30 of day 1) the last_24h cutoff computed by the source,
`DATE_TRUNC('hour', CURRENT_DATE)`, is midnight of today (minute 1440)
— not the start of the current hour (minute 2340) — so the complete
03:00 hour bucket (minute 1620, holding an in-window event at 03:10) is
excluded from the result even though it is strictly earlier than the
current hour. -/
theorem last24h_cutoff_startOfDay :
    periodCutoff "last_24h" 2370 = some (currentDate 2370)
    ∧ currentDate 2370 = 1440
    ∧ bucketOf hourLen 2370 = 2340
    ∧ bucketOf hourLen 1630 = 1620
    ∧ 1620 < 2340
    ∧ periodStart "last_24h" 2370 = some 0
    ∧ txOverTimeBuckets "last_24h" 2370 [⟨"x", 1630⟩] = [] := by
  decide

end StateOfFlow
